import Mathlib

/-!
Shallow embedding of the minebot WebSocket bridge core:
the TTL containers, the global Minecraft state, the `authenticate`,
`player-status-check` and `player-server-check` action handlers, the
connection-listener dispatch loop, and the `MinecraftHelper` facade
(`fetch_player_status`, `fetch_player_server`, `send_player_message`,
`send_server_message`, `dispatch_command`).

Sources embedded:
- `src/websocket/actions/request/authenticate.py` (the variant that extends
  `MINECRAFT_SERVERS`; the older `src/websocket/actions/authenticate.py` differs
  only in not extending the server list)
- `src/websocket/actions/response/player_status_check.py`
- `src/websocket/actions/response/player_server_check.py`
- `src/websocket/listener.py`
- `src/websocket/schemas/base_schema.py` (`validate_server`)
- `src/helper/minecraft.py`

The `data_types` module defining `TimedSet` / `TimedDict` is not part of the
source tree, so those two containers are modelled from the spec. Time is
discrete (`Nat` seconds); each cache query carries the current time
explicitly. Async effects are made explicit: handlers return a list of
connection effects, facade calls record the outbound frames they send and the
number of fixed-duration waits they perform, and cache mutation that may
happen during a wait is modelled by an environment function applied at the
suspension point.
-/

namespace Minebot

/-- Modelled from the spec: the `data_types.TimedSet` container is absent from
the source tree. `add` stores the value with a fresh timestamp (re-insertion
refreshes by shadowing the older entry); `contains` reports the value as
present only if `now - timestamp < ttl`, lazy eviction on access. -/
structure TimedSet (α : Type) where
  ttl : Nat
  entries : List (α × Nat)
deriving Repr, DecidableEq

def TimedSet.add {α : Type} (s : TimedSet α) (v : α) (now : Nat) : TimedSet α :=
  ⟨s.ttl, (v, now) :: s.entries⟩

def TimedSet.contains {α : Type} [DecidableEq α] (s : TimedSet α) (v : α) (now : Nat) : Bool :=
  match s.entries.find? (fun e => decide (e.1 = v)) with
  | none => false
  | some e => decide (now - e.2 < s.ttl)

/-- Modelled from the spec: the `data_types.TimedDict` container is absent from
the source tree. `set` stores the binding with a fresh timestamp; `get`
returns the value only if `now - timestamp < ttl`, otherwise the key is
treated as absent. -/
structure TimedDict (κ : Type) (ν : Type) where
  ttl : Nat
  entries : List (κ × ν × Nat)
deriving Repr, DecidableEq

def TimedDict.set {κ ν : Type} (d : TimedDict κ ν) (k : κ) (v : ν) (now : Nat) :
    TimedDict κ ν :=
  ⟨d.ttl, (k, v, now) :: d.entries⟩

def TimedDict.get {κ ν : Type} [DecidableEq κ] (d : TimedDict κ ν) (k : κ) (now : Nat) :
    Option ν :=
  match d.entries.find? (fun e => decide (e.1 = k)) with
  | none => none
  | some e => if now - e.2.2 < d.ttl then some e.2.1 else none

/-- Python truthiness of an optional string: `None` and `""` are falsy. -/
def truthy : Option String → Bool
  | none => false
  | some s => !s.isEmpty

/-- Payload of a validated `authenticate` frame
(`websocket/schemas/response/authenticate.py`): `password: str`,
`server_list: list[str]`. -/
structure AuthPayload where
  password : String
  server_list : List String
deriving Repr, DecidableEq

/-- Payload of a `player-status-check` report; per the spec's action table all
three fields are optional. -/
structure StatusPayload where
  username : Option String
  uuid : Option String
  online : Option Bool
deriving Repr, DecidableEq

/-- Payload of a `player-server-check` report; per the spec's action table all
fields are optional. -/
structure ServerPayload where
  username : Option String
  uuid : Option String
  server : Option String
deriving Repr, DecidableEq

/-- The process-wide mutable state of the bridge: the Authenticated Client
Table (`authenticated_client`, keyed by `id(websocket)`), the Known Server
Set (`MINECRAFT_SERVERS`, a Python `list`), and the three TTL caches from
`src/helper/minecraft.py`. -/
structure BridgeState where
  authenticated_client : List (Nat × AuthPayload)
  MINECRAFT_SERVERS : List String
  ONLINE_PLAYERS : TimedSet String
  PLAYER_UUIDS : TimedDict String String
  PLAYER_SERVERS : TimedDict String String
deriving Repr, DecidableEq

/-- The state at process start: empty registries and caches, every cache built
with a ttl of 10 seconds as in `src/helper/minecraft.py`. -/
def initState : BridgeState :=
  ⟨[], [], ⟨10, []⟩, ⟨10, []⟩, ⟨10, []⟩⟩

/-- Python dict assignment `authenticated_client[client_id] = v`: replaces any
existing binding for the key. -/
def dictSet (l : List (Nat × AuthPayload)) (k : Nat) (v : AuthPayload) :
    List (Nat × AuthPayload) :=
  (k, v) :: l.filter (fun p => p.1 ≠ k)

/-- Connection-level effect a handler produces. -/
inductive Effect where
  | close (code : Nat) (reason : String)
  | send (message : String)
deriving Repr, DecidableEq

/-- The `authenticate` handler from
`src/websocket/actions/request/authenticate.py`: on a password mismatch the
connection is closed with code 1008 and nothing is registered; on success the
client is stored in the Authenticated Client Table, `MINECRAFT_SERVERS` is
extended with the declared `server_list`, and a success reply is sent. -/
def authenticate (secret : String) (clientId : Nat) (data : AuthPayload)
    (st : BridgeState) : BridgeState × List Effect :=
  if data.password ≠ secret then
    (st, [Effect.close 1008 "Authentication failed: Invalid credentials provided"])
  else
    ({ st with
        authenticated_client := dictSet st.authenticated_client clientId data,
        MINECRAFT_SERVERS := st.MINECRAFT_SERVERS ++ data.server_list },
      [Effect.send "Authentication successful"])

/-- The `player-status-check` handler from
`src/websocket/actions/response/player_status_check.py`: only when `online`,
`username` and `uuid` are all truthy does it add both identifiers to
`ONLINE_PLAYERS` and record the username-to-UUID mapping. -/
def player_status_check (now : Nat) (data : StatusPayload) (st : BridgeState) :
    BridgeState :=
  if data.online.getD false && truthy data.username && truthy data.uuid then
    { st with
        ONLINE_PLAYERS :=
          (st.ONLINE_PLAYERS.add (data.username.getD "") now).add (data.uuid.getD "") now,
        PLAYER_UUIDS :=
          st.PLAYER_UUIDS.set (data.username.getD "") (data.uuid.getD "") now }
  else st

/-- The `player-server-check` handler from
`src/websocket/actions/response/player_server_check.py`: when `server` is
truthy, assigns it in `PLAYER_SERVERS` under the username and the uuid, each
only when that identifier is itself truthy. -/
def player_server_check (now : Nat) (data : ServerPayload) (st : BridgeState) :
    BridgeState :=
  if truthy data.server then
    let s := data.server.getD ""
    let d1 :=
      if truthy data.username then st.PLAYER_SERVERS.set (data.username.getD "") s now
      else st.PLAYER_SERVERS
    let d2 :=
      if truthy data.uuid then d1.set (data.uuid.getD "") s now
      else d1
    { st with PLAYER_SERVERS := d2 }
  else st

/-- Raw field set of a decoded JSON frame, before schema validation: the union
of the fields of all registered actions, each possibly absent. -/
structure RawData where
  password : Option String
  server_list : Option (List String)
  username : Option String
  uuid : Option String
  online : Option Bool
  server : Option String
deriving Repr, DecidableEq

/-- An inbound frame as the listener sees it: undecodable JSON, a JSON object
with no (or a falsy) `action` field, or an `action` name with its raw
payload. -/
inductive Frame where
  | malformed
  | noAction
  | action (name : String) (raw : RawData)
deriving Repr, DecidableEq

/-- Validation of an `authenticate` payload
(`websocket/schemas/response/authenticate.py`): `password` and `server_list`
are required fields; missing either is a pydantic `ValidationError`. -/
def validateAuth (raw : RawData) : Option AuthPayload :=
  match raw.password, raw.server_list with
  | some p, some l => some ⟨p, l⟩
  | _, _ => none

/-- Validation of a `player-status-check` payload: per the spec's action table
every field (`username?`, `uuid?`, `online?`) is optional, so validation
always succeeds. -/
def validateStatus (raw : RawData) : Option StatusPayload :=
  some ⟨raw.username, raw.uuid, raw.online⟩

/-- The `validate_server` field validator from
`src/websocket/schemas/base_schema.py`: a `server` value is accepted only if
it occurs in the `server_list` of some entry of the Authenticated Client
Table, otherwise validation raises. -/
def validate_server (st : BridgeState) (v : String) : Bool :=
  st.authenticated_client.any (fun p => p.2.server_list.contains v)

/-- Validation of a `player-server-check` payload. Modelled from the spec:
the `PlayerServerCheckSchema` class is absent from the source tree; per the
spec's action table its fields are optional, and the `server` field, when
present, passes through `validate_server` of `base_schema.py` (which is in
the source tree). -/
def validateServerCheck (st : BridgeState) (raw : RawData) : Option ServerPayload :=
  match raw.server with
  | none => some ⟨raw.username, raw.uuid, none⟩
  | some s =>
      if validate_server st s then some ⟨raw.username, raw.uuid, some s⟩
      else none

/-- One iteration of the per-connection read loop of
`src/websocket/listener.py`: malformed JSON, a missing action, an action with
no registered handler, and a payload failing schema validation are each
logged and dropped, leaving the state untouched and the connection open;
otherwise the registered handler runs on the validated payload. -/
def handle_frame (secret : String) (clientId : Nat) (now : Nat) (st : BridgeState)
    (f : Frame) : BridgeState × List Effect :=
  match f with
  | Frame.malformed => (st, [])
  | Frame.noAction => (st, [])
  | Frame.action name raw =>
      if name = "authenticate" then
        match validateAuth raw with
        | none => (st, [])
        | some d => authenticate secret clientId d st
      else if name = "player-status-check" then
        match validateStatus raw with
        | none => (st, [])
        | some d => (player_status_check now d st, [])
      else if name = "player-server-check" then
        match validateServerCheck st raw with
        | none => (st, [])
        | some d => (player_server_check now d st, [])
      else (st, [])

/-- Whether an action name has a registered handler. -/
def registered (name : String) : Bool :=
  name = "authenticate" || name = "player-status-check" || name = "player-server-check"

/-- One inbound frame together with the connection it arrived on and the time
it was processed. -/
structure Event where
  clientId : Nat
  now : Nat
  frame : Frame
deriving Repr, DecidableEq

/-- The bridge state reached by processing a sequence of inbound events from
process start. -/
def run (secret : String) (evts : List Event) : BridgeState :=
  evts.foldl (fun st e => (handle_frame secret e.clientId e.now st e.frame).1) initState

/-- Message types for Minecraft server messages (`src/model/ready.py`). -/
inductive MessageType where
  | INFO | SUCCESS | WARN | ERROR | QUESTION | ANNOUNCE | NO_PREFIX
deriving Repr, DecidableEq

/-- The `commands: str | list[str]` argument of `dispatch_command`. -/
inductive Commands where
  | one (s : String)
  | many (l : List String)
deriving Repr, DecidableEq

/-- An outbound frame produced by the Bridge Facade, one constructor per
request schema it can send. -/
inductive OutFrame where
  | statusCheck (username uuid : Option String)
  | serverCheck (username uuid : Option String)
  | playerMessage (username uuid : Option String) (message_type : MessageType)
      (message : String)
  | serverMessage (server : String) (message_type : MessageType) (message : String)
  | globalMessage (message_type : MessageType) (message : String)
  | dispatchCommandMsg (server : String) (commands : Commands)
deriving Repr, DecidableEq

/-- Python `username or uuid or ""`: the first truthy operand, else `""`. -/
def pyOrStr (a b : Option String) : String :=
  if truthy a then a.getD "" else if truthy b then b.getD "" else ""

/-- `MinecraftHelper._resolve_identifier` from `src/helper/minecraft.py`.
`db` models the `UserService.get_user` lookup, returning the stored
`minecraft_uuid` of a Discord user id (`none` when the row or field is
absent). A raised `ValueError` is an `Except.error`. -/
def resolve_identifier (db : Nat → Option String) (user : Option Nat)
    (username uuid : Option String) : Except String (String × Bool) :=
  match user with
  | some u =>
      if truthy username || truthy uuid then
        Except.error "When user is provided, username and uuid must be None"
      else
        match db u with
        | none => Except.ok ("", false)
        | some mu => if mu.isEmpty then Except.ok ("", false) else Except.ok (mu, true)
  | none =>
      if username.isSome = uuid.isSome then
        Except.error "Exactly one of username or uuid must be provided"
      else
        Except.ok (pyOrStr username uuid, false)

/-- Result of one facade call: the returned value or the raised error, the
bridge state after the call, the outbound frames sent, and how many
fixed-duration response waits were performed. -/
structure Eff (α : Type) where
  result : Except String α
  state : BridgeState
  sent : List OutFrame
  waits : Nat

/-- `MinecraftHelper.fetch_player_status` from `src/helper/minecraft.py`.
`env` is the cache mutation performed by inbound report frames during the
response wait; `now` is the time of the pre-wait cache check and `now2` the
time of the post-wait re-check. -/
def fetch_player_status (db : Nat → Option String) (env : BridgeState → BridgeState)
    (now now2 : Nat) (user : Option Nat) (username uuid : Option String)
    (st : BridgeState) : Eff Bool :=
  if st.MINECRAFT_SERVERS.isEmpty then ⟨Except.ok false, st, [], 0⟩
  else
    match resolve_identifier db user username uuid with
    | Except.error e => ⟨Except.error e, st, [], 0⟩
    | Except.ok (identifier, from_db) =>
        if identifier.isEmpty then ⟨Except.ok false, st, [], 0⟩
        else if st.ONLINE_PLAYERS.contains identifier now then ⟨Except.ok true, st, [], 0⟩
        else
          let st2 := env st
          ⟨Except.ok (st2.ONLINE_PLAYERS.contains identifier now2), st2,
            [OutFrame.statusCheck (if from_db then none else username)
              (if from_db then some identifier else uuid)], 1⟩

/-- `MinecraftHelper.fetch_player_server` from `src/helper/minecraft.py`.
`env1` is the environment of the wait inside the nested status fetch and
`env2` that of the explicit server-check wait; `now`, `now2`, `now3` are the
successive cache-query times. -/
def fetch_player_server (db : Nat → Option String)
    (env1 env2 : BridgeState → BridgeState) (now now2 now3 : Nat)
    (user : Option Nat) (username uuid : Option String) (st : BridgeState) :
    Eff (Option String) :=
  if st.MINECRAFT_SERVERS.isEmpty then ⟨Except.ok none, st, [], 0⟩
  else
    match resolve_identifier db user username uuid with
    | Except.error e => ⟨Except.error e, st, [], 0⟩
    | Except.ok (identifier, from_db) =>
        if identifier.isEmpty then ⟨Except.ok none, st, [], 0⟩
        else
          match st.PLAYER_SERVERS.get identifier now with
          | some srv => ⟨Except.ok (some srv), st, [], 0⟩
          | none =>
              let r := fetch_player_status db env1 now now2 none
                (if from_db then none else username)
                (if from_db then some identifier else uuid) st
              match r.result with
              | Except.error e => ⟨Except.error e, r.state, r.sent, r.waits⟩
              | Except.ok is_online =>
                  if !is_online then ⟨Except.ok none, r.state, r.sent, r.waits⟩
                  else
                    match r.state.PLAYER_SERVERS.get identifier now2 with
                    | some srv => ⟨Except.ok (some srv), r.state, r.sent, r.waits⟩
                    | none =>
                        if r.state.MINECRAFT_SERVERS.length = 1 then
                          ⟨Except.ok r.state.MINECRAFT_SERVERS.head?, r.state,
                            r.sent, r.waits⟩
                        else
                          let st3 := env2 r.state
                          ⟨Except.ok (st3.PLAYER_SERVERS.get identifier now3), st3,
                            r.sent ++ [OutFrame.serverCheck
                              (if from_db then none else username)
                              (if from_db then some identifier else uuid)],
                            r.waits + 1⟩

/-- `MinecraftHelper.send_player_message` from `src/helper/minecraft.py`:
requires the servers check, identifier resolution and a confirmed online
status before sending the `send-player-message` frame. -/
def send_player_message (db : Nat → Option String) (env1 : BridgeState → BridgeState)
    (now now2 : Nat) (message_type : MessageType) (message : String)
    (user : Option Nat) (username uuid : Option String) (st : BridgeState) : Eff Bool :=
  if st.MINECRAFT_SERVERS.isEmpty then ⟨Except.ok false, st, [], 0⟩
  else
    match resolve_identifier db user username uuid with
    | Except.error e => ⟨Except.error e, st, [], 0⟩
    | Except.ok (identifier, from_db) =>
        if identifier.isEmpty then ⟨Except.ok false, st, [], 0⟩
        else
          let r := fetch_player_status db env1 now now2 none
            (if from_db then none else username)
            (if from_db then some identifier else uuid) st
          match r.result with
          | Except.error e => ⟨Except.error e, r.state, r.sent, r.waits⟩
          | Except.ok is_online =>
              if !is_online then ⟨Except.ok false, r.state, r.sent, r.waits⟩
              else
                ⟨Except.ok true, r.state,
                  r.sent ++ [OutFrame.playerMessage
                    (if from_db then none else username)
                    (if from_db then some identifier else uuid) message_type message],
                  r.waits⟩

/-- `MinecraftHelper.send_server_message` from `src/helper/minecraft.py`:
returns whether the message was sent, together with the frames sent. -/
def send_server_message (message_type : MessageType) (message : String)
    (server : String) (st : BridgeState) : Bool × List OutFrame :=
  if st.MINECRAFT_SERVERS.isEmpty then (false, [])
  else if !st.MINECRAFT_SERVERS.contains server then (false, [])
  else (true, [OutFrame.serverMessage server message_type message])

/-- `MinecraftHelper.dispatch_command` from `src/helper/minecraft.py`: an
unknown server raises `ValueError` (`Except.error`), but only after the
servers-available check, which returns `False` when no servers exist. -/
def dispatch_command (server : String) (commands : Commands) (st : BridgeState) :
    Except String (Bool × List OutFrame) :=
  if st.MINECRAFT_SERVERS.isEmpty then Except.ok (false, [])
  else if !st.MINECRAFT_SERVERS.contains server then
    Except.error "Server not found in available servers"
  else Except.ok (true, [OutFrame.dispatchCommandMsg server commands])

/-! Helper lemmas about the TTL containers. -/

theorem TimedSet.contains_add_self (s : TimedSet String) (v : String) (t0 t : Nat) :
    (s.add v t0).contains v t = decide (t - t0 < s.ttl) := by
  simp [TimedSet.add, TimedSet.contains, List.find?]

theorem TimedSet.contains_add_other (s : TimedSet String) (v w : String) (t0 t : Nat)
    (h : v ≠ w) : (s.add v t0).contains w t = s.contains w t := by
  simp [TimedSet.add, TimedSet.contains, List.find?, h]

theorem TimedDict.get_set_self (d : TimedDict String String) (k v : String) (t0 t : Nat) :
    (d.set k v t0).get k t = if t - t0 < d.ttl then some v else none := by
  simp [TimedDict.set, TimedDict.get, List.find?]

theorem TimedDict.get_set_cases (d : TimedDict String String) (k1 v1 : String)
    (t0 : Nat) (k : String) (t : Nat) (v : String)
    (h : (d.set k1 v1 t0).get k t = some v) : v = v1 ∨ d.get k t = some v := by
  by_cases hk : k1 = k
  · subst hk
    rw [TimedDict.get_set_self] at h
    split at h
    · exact Or.inl (Option.some.inj h).symm
    · exact absurd h (by simp)
  · right
    simpa [TimedDict.set, TimedDict.get, List.find?, hk] using h

/-! Invariants of the reachable bridge states. -/

/-- State invariant: a non-empty Known Server Set implies a non-empty
Authenticated Client Table, and every server declared by an authenticated
client is in the Known Server Set. -/
def GoodState (st : BridgeState) : Prop :=
  (st.authenticated_client = [] → st.MINECRAFT_SERVERS = []) ∧
  (∀ p ∈ st.authenticated_client, ∀ x ∈ p.2.server_list, x ∈ st.MINECRAFT_SERVERS)

theorem goodState_init : GoodState initState := by
  constructor
  · intro; rfl
  · intro p hp
    simp [initState] at hp

theorem goodState_handle_frame (secret : String) (cid now : Nat) (st : BridgeState)
    (f : Frame) (h : GoodState st) :
    GoodState (handle_frame secret cid now st f).1 := by
  obtain ⟨h1, h2⟩ := h
  cases f with
  | malformed => exact ⟨h1, h2⟩
  | noAction => exact ⟨h1, h2⟩
  | action name raw =>
      simp only [handle_frame]
      split
      · rename_i hname
        cases hv : validateAuth raw with
        | none => exact ⟨h1, h2⟩
        | some d =>
            simp only [authenticate]
            split
            · exact ⟨h1, h2⟩
            · constructor
              · intro hc
                simp [dictSet] at hc
              · intro p hp x hx
                simp only [dictSet, List.mem_cons] at hp
                rcases hp with rfl | hp
                · exact List.mem_append_right _ hx
                · exact List.mem_append_left _ (h2 p (List.mem_of_mem_filter hp) x hx)
      · split
        · rename_i hname
          cases hv : validateStatus raw with
          | none => exact ⟨h1, h2⟩
          | some d =>
              dsimp only
              unfold player_status_check
              split
              · exact ⟨h1, h2⟩
              · exact ⟨h1, h2⟩
        · split
          · rename_i hname
            cases hv : validateServerCheck st raw with
            | none => exact ⟨h1, h2⟩
            | some d =>
                dsimp only
                unfold player_server_check
                split
                · exact ⟨h1, h2⟩
                · exact ⟨h1, h2⟩
          · exact ⟨h1, h2⟩

theorem goodState_run (secret : String) (evts : List Event) :
    GoodState (run secret evts) := by
  suffices hgen : ∀ st : BridgeState, GoodState st →
      GoodState (evts.foldl
        (fun s e => (handle_frame secret e.clientId e.now s e.frame).1) st) by
    exact hgen initState goodState_init
  induction evts with
  | nil => intro st h; exact h
  | cons e rest ih =>
      intro st h
      exact ih _ (goodState_handle_frame secret e.clientId e.now st e.frame h)

/-! Claim theorems. -/

/-- C1: an `authenticate` action whose password does not equal the configured
shared secret closes the connection with policy-violation code 1008, creates
no entry in the Authenticated Client Table, and leaves the Known Server Set
untouched (the state is returned unchanged). -/
theorem C1_wrong_secret_rejected (secret : String) (cid : Nat) (d : AuthPayload)
    (st : BridgeState) (h : d.password ≠ secret) :
    authenticate secret cid d st =
      (st, [Effect.close 1008 "Authentication failed: Invalid credentials provided"]) := by
  simp [authenticate, h]

/-- Witness for C1 at a concrete wrong-password input. -/
theorem C1_wrong_secret_rejected_witness :
    authenticate "hunter2" 7 ⟨"wrong", ["svA"]⟩ initState =
      (initState,
        [Effect.close 1008 "Authentication failed: Invalid credentials provided"]) :=
  C1_wrong_secret_rejected "hunter2" 7 ⟨"wrong", ["svA"]⟩ initState (by decide)

/-- C2 counterexample: the Known Server Set is a Python list extended with
`.extend()`, so running the same correct-secret `authenticate` twice appends
the same entry twice — `svA` ends up with multiplicity 2, not exactly once,
and the repetition does change `MINECRAFT_SERVERS`, refuting idempotence. -/
theorem C2_counterexample :
    ((authenticate "pw" 1 ⟨"pw", ["svA"]⟩
        ((authenticate "pw" 1 ⟨"pw", ["svA"]⟩ initState).1)).1).MINECRAFT_SERVERS =
      ["svA", "svA"] ∧
    ((authenticate "pw" 1 ⟨"pw", ["svA"]⟩
        ((authenticate "pw" 1 ⟨"pw", ["svA"]⟩ initState).1)).1).MINECRAFT_SERVERS.count
        "svA" ≠ 1 ∧
    ((authenticate "pw" 1 ⟨"pw", ["svA"]⟩
        ((authenticate "pw" 1 ⟨"pw", ["svA"]⟩ initState).1)).1).MINECRAFT_SERVERS ≠
      ((authenticate "pw" 1 ⟨"pw", ["svA"]⟩ initState).1).MINECRAFT_SERVERS := by
  decide

/-- C2 (amended): a correct-secret `authenticate` appends every `server_list`
entry to the Known Server list, so each entry becomes a member; repeating the
same `authenticate` leaves membership unchanged but appends the entries
again, duplicating them in the list — idempotent on membership only, not on
the list itself. -/
theorem C2_authenticate_appends (secret : String) (cid : Nat) (d : AuthPayload)
    (st : BridgeState) (h : d.password = secret) :
    (∀ x, x ∈ ((authenticate secret cid d st).1).MINECRAFT_SERVERS ↔
        x ∈ st.MINECRAFT_SERVERS ∨ x ∈ d.server_list) ∧
    ((authenticate secret cid d ((authenticate secret cid d st).1)).1).MINECRAFT_SERVERS =
      ((authenticate secret cid d st).1).MINECRAFT_SERVERS ++ d.server_list ∧
    (∀ x, x ∈ ((authenticate secret cid d
          ((authenticate secret cid d st).1)).1).MINECRAFT_SERVERS ↔
        x ∈ ((authenticate secret cid d st).1).MINECRAFT_SERVERS) := by
  refine ⟨?_, ?_, ?_⟩
  · intro x
    simp [authenticate, h]
  · simp [authenticate, h]
  · intro x
    simp [authenticate, h]

/-- Witness for C2's amended theorem at a concrete correct-secret input. -/
theorem C2_authenticate_appends_witness :
    (∀ x, x ∈ ((authenticate "pw" 1 ⟨"pw", ["svA"]⟩ initState).1).MINECRAFT_SERVERS ↔
        x ∈ initState.MINECRAFT_SERVERS ∨ x ∈ ["svA"]) ∧
    ((authenticate "pw" 1 ⟨"pw", ["svA"]⟩
        ((authenticate "pw" 1 ⟨"pw", ["svA"]⟩ initState).1)).1).MINECRAFT_SERVERS =
      ((authenticate "pw" 1 ⟨"pw", ["svA"]⟩ initState).1).MINECRAFT_SERVERS ++ ["svA"] ∧
    (∀ x, x ∈ ((authenticate "pw" 1 ⟨"pw", ["svA"]⟩
          ((authenticate "pw" 1 ⟨"pw", ["svA"]⟩ initState).1)).1).MINECRAFT_SERVERS ↔
        x ∈ ((authenticate "pw" 1 ⟨"pw", ["svA"]⟩ initState).1).MINECRAFT_SERVERS) :=
  C2_authenticate_appends "pw" 1 ⟨"pw", ["svA"]⟩ initState rfl

/-- C3: a key inserted into a TimedSet or TimedDict with ttl `T` at time `t0`
is reported present (with its stored value) by any query strictly before
`t0 + T` and absent (false / `none`) by any query at `t0 + T` or later. -/
theorem C3_ttl_window (s : TimedSet String) (d : TimedDict String String)
    (v k val : String) (t0 t : Nat) (_h : t0 ≤ t) :
    ((s.add v t0).contains v t = true ↔ t - t0 < s.ttl) ∧
    ((d.set k val t0).get k t = if t - t0 < d.ttl then some val else none) := by
  refine ⟨?_, TimedDict.get_set_self d k val t0 t⟩
  rw [TimedSet.contains_add_self]
  simp

/-- Witness for C3 at a concrete insertion and query time. -/
theorem C3_ttl_window_witness :
    (((⟨10, []⟩ : TimedSet String).add "alice" 2).contains "alice" 5 = true ↔
      5 - 2 < 10) ∧
    (((⟨10, []⟩ : TimedDict String String).set "alice" "u-1" 2).get "alice" 5 =
      if 5 - 2 < 10 then some "u-1" else none) :=
  C3_ttl_window ⟨10, []⟩ ⟨10, []⟩ "alice" "alice" "u-1" 2 5 (by decide)

/-- C4 counterexample: a state reachable by a single inbound
`player-status-check` report (no authentication ever succeeded) has `alice`
non-expired in the Presence cache, yet `fetch_player_status` returns `false`
for her, because the empty-server guard runs before the cache is consulted. -/
theorem C4_counterexample :
    ((run "pw" [⟨1, 0, Frame.action "player-status-check"
        ⟨none, none, some "alice", some "u-1", some true, none⟩⟩]).ONLINE_PLAYERS.contains
        "alice" 0 = true) ∧
    ((run "pw" [⟨1, 0, Frame.action "player-status-check"
        ⟨none, none, some "alice", some "u-1", some true, none⟩⟩]).MINECRAFT_SERVERS = []) ∧
    ((fetch_player_status (fun _ => none) id 0 0 none (some "alice") none
        (run "pw" [⟨1, 0, Frame.action "player-status-check"
          ⟨none, none, some "alice", some "u-1", some true, none⟩⟩])).result =
      Except.ok false) :=
  ⟨by decide, by decide, rfl⟩

/-- C4 (amended): provided the Known Server Set is non-empty, a presence
check for a non-empty identifier (passed either as the username or as the
uuid) that is non-expired in the Presence cache returns true, sends no
outbound broadcast, and performs no timeout wait; when the Known Server Set
is empty the same call instead returns false. -/
theorem C4_cached_presence (db : Nat → Option String) (env : BridgeState → BridgeState)
    (now now2 : Nat) (idf : String) (username uuid : Option String) (st : BridgeState)
    (hs : st.MINECRAFT_SERVERS ≠ [])
    (hid : idf ≠ "")
    (hq : (username = some idf ∧ uuid = none) ∨ (username = none ∧ uuid = some idf))
    (hc : st.ONLINE_PLAYERS.contains idf now = true) :
    fetch_player_status db env now now2 none username uuid st =
      ⟨Except.ok true, st, [], 0⟩ := by
  have hie : st.MINECRAFT_SERVERS.isEmpty = false := by
    simpa [List.isEmpty_iff] using hs
  have hide : idf.isEmpty = false := by
    rw [Bool.eq_false_iff]
    intro hcontra
    exact hid ((String.isEmpty_iff idf).mp hcontra)
  rcases hq with ⟨rfl, rfl⟩ | ⟨rfl, rfl⟩ <;>
    simp [fetch_player_status, resolve_identifier, pyOrStr, truthy, hie, hide, hc]

/-- Witness for C4's amended theorem: a state holding one known server and a
cached player, queried by username and by uuid. -/
theorem C4_cached_presence_witness :
    fetch_player_status (fun _ => none) id 3 3 none (some "alice") none
      ⟨[(1, ⟨"pw", ["svA"]⟩)], ["svA"], ⟨10, [("alice", 0)]⟩, ⟨10, []⟩, ⟨10, []⟩⟩ =
      ⟨Except.ok true, ⟨[(1, ⟨"pw", ["svA"]⟩)], ["svA"], ⟨10, [("alice", 0)]⟩,
        ⟨10, []⟩, ⟨10, []⟩⟩, [], 0⟩ :=
  C4_cached_presence (fun _ => none) id 3 3 "alice" (some "alice") none
    ⟨[(1, ⟨"pw", ["svA"]⟩)], ["svA"], ⟨10, [("alice", 0)]⟩, ⟨10, []⟩, ⟨10, []⟩⟩
    (by decide) (by decide) (Or.inl ⟨rfl, rfl⟩) (by decide)

/-- C5: in any reachable bridge state whose Authenticated Client Table is
empty, `fetch_player_status` returns false immediately for any query: no
outbound frame is sent, no timeout wait is performed, and the state is
untouched. An empty Authenticated Client Table in a reachable state forces an
empty Known Server Set (servers are only registered by a successful
`authenticate`, which also stores the client), so the empty-server guard
fires first. -/
theorem C5_no_connections_immediate_false (secret : String) (evts : List Event)
    (db : Nat → Option String) (env : BridgeState → BridgeState) (now now2 : Nat)
    (user : Option Nat) (username uuid : Option String)
    (h : (run secret evts).authenticated_client = []) :
    fetch_player_status db env now now2 user username uuid (run secret evts) =
      ⟨Except.ok false, run secret evts, [], 0⟩ := by
  have hs : (run secret evts).MINECRAFT_SERVERS = [] := (goodState_run secret evts).1 h
  simp [fetch_player_status, hs]

/-- Witness for C5 at the empty trace (no client ever authenticated). -/
theorem C5_no_connections_immediate_false_witness :
    fetch_player_status (fun _ => none) id 0 0 none (some "alice") none (run "pw" []) =
      ⟨Except.ok false, run "pw" [], [], 0⟩ :=
  C5_no_connections_immediate_false "pw" [] (fun _ => none) id 0 0 none
    (some "alice") none rfl

/-- C6 counterexample: an inbound `player-status-check` report with
`online = true` that provides only a username (no uuid) inserts nothing: the
handler requires username and uuid to both be truthy, so the state is
unchanged and a later presence query for the provided name fails. -/
theorem C6_counterexample :
    player_status_check 0 ⟨some "alice", none, some true⟩ initState = initState ∧
    (player_status_check 0 ⟨some "alice", none, some true⟩
        initState).ONLINE_PLAYERS.contains "alice" 0 = false := by
  decide

/-- C6 (amended): an inbound `player-status-check` report with `online = true`
inserts the provided identifiers into the Presence cache only when username
and uuid are both provided and non-empty; in that case both are queryable
within the TTL window and the username-to-uuid mapping is recorded (no
uuid-to-username mapping is kept). A report missing either identifier, or not
online, leaves the state unchanged. -/
theorem C6_status_report_both_ids (now t : Nat) (d : StatusPayload) (st : BridgeState)
    (h1 : d.online.getD false = true) (h2 : truthy d.username = true)
    (h3 : truthy d.uuid = true)
    (ht1 : t - now < st.ONLINE_PLAYERS.ttl) (ht2 : t - now < st.PLAYER_UUIDS.ttl) :
    ((player_status_check now d st).ONLINE_PLAYERS.contains (d.username.getD "") t
        = true) ∧
    ((player_status_check now d st).ONLINE_PLAYERS.contains (d.uuid.getD "") t
        = true) ∧
    ((player_status_check now d st).PLAYER_UUIDS.get (d.username.getD "") t
        = some (d.uuid.getD "")) ∧
    (∀ d2 : StatusPayload,
      (d2.online.getD false && truthy d2.username && truthy d2.uuid) = false →
      player_status_check now d2 st = st) := by
  have hcond : (d.online.getD false && truthy d.username && truthy d.uuid) = true := by
    simp [h1, h2, h3]
  refine ⟨?_, ?_, ?_, ?_⟩
  · unfold player_status_check
    rw [hcond]
    simp only [if_true]
    by_cases huv : d.uuid.getD "" = d.username.getD ""
    · rw [huv, TimedSet.contains_add_self]
      simpa using ht1
    · rw [TimedSet.contains_add_other _ _ _ _ _ huv, TimedSet.contains_add_self]
      simpa using ht1
  · unfold player_status_check
    rw [hcond]
    simp only [if_true]
    rw [TimedSet.contains_add_self]
    simpa using ht1
  · unfold player_status_check
    rw [hcond]
    simp only [if_true]
    rw [TimedDict.get_set_self]
    simp [ht2]
  · intro d2 hfalse
    unfold player_status_check
    rw [hfalse]
    simp

/-- Witness for C6's amended theorem at a concrete two-identifier report. -/
theorem C6_status_report_both_ids_witness :
    ((player_status_check 0 ⟨some "alice", some "u-1", some true⟩
        initState).ONLINE_PLAYERS.contains "alice" 3 = true) ∧
    ((player_status_check 0 ⟨some "alice", some "u-1", some true⟩
        initState).ONLINE_PLAYERS.contains "u-1" 3 = true) ∧
    ((player_status_check 0 ⟨some "alice", some "u-1", some true⟩
        initState).PLAYER_UUIDS.get "alice" 3 = some "u-1") ∧
    (∀ d2 : StatusPayload,
      (d2.online.getD false && truthy d2.username && truthy d2.uuid) = false →
      player_status_check 0 d2 initState = initState) :=
  C6_status_report_both_ids 0 3 ⟨some "alice", some "u-1", some true⟩ initState
    rfl rfl rfl (by decide) (by decide)

/-! Dispatch equations and C7. -/

theorem handle_frame_server_eq (secret : String) (cid now : Nat) (st : BridgeState)
    (raw : RawData) :
    handle_frame secret cid now st (Frame.action "player-server-check" raw) =
      match validateServerCheck st raw with
      | none => (st, [])
      | some d => (player_server_check now d st, []) := rfl

theorem handle_frame_auth_eq (secret : String) (cid now : Nat) (st : BridgeState)
    (raw : RawData) :
    handle_frame secret cid now st (Frame.action "authenticate" raw) =
      match validateAuth raw with
      | none => (st, [])
      | some d => authenticate secret cid d st := rfl

theorem validate_server_mem (st : BridgeState) (s : String)
    (h : validate_server st s = true) :
    ∃ p ∈ st.authenticated_client, s ∈ p.2.server_list := by
  simpa [validate_server, List.any_eq_true] using h


theorem C7_location_entry_known_server (secret : String) (evts : List Event)
    (cid now : Nat) (raw : RawData) :
    (∀ k v t,
      ((handle_frame secret cid now (run secret evts)
          (Frame.action "player-server-check" raw)).1).PLAYER_SERVERS.get k t = some v →
      (run secret evts).PLAYER_SERVERS.get k t = some v ∨
        v ∈ (run secret evts).MINECRAFT_SERVERS) ∧
    (∀ s, raw.server = some s → s ∉ (run secret evts).MINECRAFT_SERVERS →
      (handle_frame secret cid now (run secret evts)
          (Frame.action "player-server-check" raw)).1 = run secret evts) := by
  have hgood := goodState_run secret evts
  rw [handle_frame_server_eq]
  cases hraw : raw.server with
  | none =>
      have hv : validateServerCheck (run secret evts) raw =
          some ⟨raw.username, raw.uuid, none⟩ := by
        simp [validateServerCheck, hraw]
      rw [hv]
      constructor
      · intro k v t hget
        unfold player_server_check at hget
        simp [truthy] at hget
        exact Or.inl hget
      · intro s hs
        exact Option.noConfusion hs
  | some s =>
      by_cases hvs : validate_server (run secret evts) s = true
      · have hv : validateServerCheck (run secret evts) raw =
            some ⟨raw.username, raw.uuid, some s⟩ := by
          simp [validateServerCheck, hraw, hvs]
        rw [hv]
        have hmem : s ∈ (run secret evts).MINECRAFT_SERVERS := by
          obtain ⟨p, hp, hsp⟩ := validate_server_mem _ _ hvs
          exact hgood.2 p hp s hsp
        constructor
        · intro k v t hget
          unfold player_server_check at hget
          dsimp only at hget
          by_cases hse : truthy (some s) = true
          · rw [if_pos hse] at hget
            by_cases hu2 : truthy raw.uuid = true
            · rw [if_pos hu2] at hget
              rcases TimedDict.get_set_cases _ _ _ _ _ _ _ hget with rfl | hget2
              · exact Or.inr hmem
              · by_cases hu1 : truthy raw.username = true
                · rw [if_pos hu1] at hget2
                  rcases TimedDict.get_set_cases _ _ _ _ _ _ _ hget2 with rfl | hget3
                  · exact Or.inr hmem
                  · exact Or.inl hget3
                · rw [if_neg hu1] at hget2
                  exact Or.inl hget2
            · rw [if_neg hu2] at hget
              by_cases hu1 : truthy raw.username = true
              · rw [if_pos hu1] at hget
                rcases TimedDict.get_set_cases _ _ _ _ _ _ _ hget with rfl | hget2
                · exact Or.inr hmem
                · exact Or.inl hget2
              · rw [if_neg hu1] at hget
                exact Or.inl hget
          · rw [if_neg hse] at hget
            exact Or.inl hget
        · intro s2 hs2 hnot
          cases hs2
          exact absurd hmem hnot
      · have hv : validateServerCheck (run secret evts) raw = none := by
          simp [validateServerCheck, hraw, hvs]
        rw [hv]
        exact ⟨fun k v t hget => Or.inl hget, fun _ _ _ => rfl⟩


/-- Witness for C7: after one successful authenticate declaring `svA`, a
`player-server-check` report for `bob` on `svA` yields a Location Entry whose
server is in the Known Server Set. -/
theorem C7_location_entry_known_server_witness :
    (run "pw" [⟨1, 0, Frame.action "authenticate"
        ⟨some "pw", some ["svA"], none, none, none, none⟩⟩]).PLAYER_SERVERS.get "bob" 0 =
      some "svA" ∨
    "svA" ∈ (run "pw" [⟨1, 0, Frame.action "authenticate"
        ⟨some "pw", some ["svA"], none, none, none, none⟩⟩]).MINECRAFT_SERVERS :=
  (C7_location_entry_known_server "pw"
    [⟨1, 0, Frame.action "authenticate" ⟨some "pw", some ["svA"], none, none, none, none⟩⟩]
    1 5 ⟨none, none, some "bob", none, none, some "svA"⟩).1 "bob" "svA" 0 (by decide)

/-- C8 counterexample: with an empty Known Server Set every server name is
outside it, yet `dispatch_command` returns `False` instead of raising,
because `check_servers_available` runs before the unknown-server check. -/
theorem C8_counterexample :
    "svA" ∉ initState.MINECRAFT_SERVERS ∧
    dispatch_command "svA" (Commands.many ["say hi"]) initState =
      Except.ok (false, []) :=
  ⟨by decide, rfl⟩

/-- C8 (amended): for a server name outside the Known Server Set,
`send_server_message` returns false and sends no frame; `dispatch_command`
raises `ValueError` when the Known Server Set is non-empty, but returns false
without raising when it is empty (the servers-available guard runs first). -/
theorem C8_unknown_target (message_type : MessageType) (message server : String)
    (commands : Commands) (st : BridgeState)
    (h : server ∉ st.MINECRAFT_SERVERS) :
    send_server_message message_type message server st = (false, []) ∧
    (st.MINECRAFT_SERVERS ≠ [] →
      dispatch_command server commands st =
        Except.error "Server not found in available servers") ∧
    (st.MINECRAFT_SERVERS = [] →
      dispatch_command server commands st = Except.ok (false, [])) := by
  have hc : st.MINECRAFT_SERVERS.contains server = false := by
    simpa using h
  refine ⟨?_, ?_, ?_⟩
  · unfold send_server_message
    rw [hc]
    simp
  · intro hne
    have hie : st.MINECRAFT_SERVERS.isEmpty = false := by
      simpa [List.isEmpty_iff] using hne
    unfold dispatch_command
    rw [hie, hc]
    simp
  · intro he
    unfold dispatch_command
    rw [he]
    rfl

/-- Witness for C8's amended theorem: one known server `svA`, unknown target
`svB`. -/
theorem C8_unknown_target_witness :
    send_server_message MessageType.INFO "hello" "svB"
      ⟨[(1, ⟨"pw", ["svA"]⟩)], ["svA"], ⟨10, []⟩, ⟨10, []⟩, ⟨10, []⟩⟩ = (false, []) ∧
    ((⟨[(1, ⟨"pw", ["svA"]⟩)], ["svA"], ⟨10, []⟩, ⟨10, []⟩, ⟨10, []⟩⟩ :
        BridgeState).MINECRAFT_SERVERS ≠ [] →
      dispatch_command "svB" (Commands.one "say hi")
        ⟨[(1, ⟨"pw", ["svA"]⟩)], ["svA"], ⟨10, []⟩, ⟨10, []⟩, ⟨10, []⟩⟩ =
        Except.error "Server not found in available servers") ∧
    ((⟨[(1, ⟨"pw", ["svA"]⟩)], ["svA"], ⟨10, []⟩, ⟨10, []⟩, ⟨10, []⟩⟩ :
        BridgeState).MINECRAFT_SERVERS = [] →
      dispatch_command "svB" (Commands.one "say hi")
        ⟨[(1, ⟨"pw", ["svA"]⟩)], ["svA"], ⟨10, []⟩, ⟨10, []⟩, ⟨10, []⟩⟩ =
        Except.ok (false, [])) :=
  C8_unknown_target MessageType.INFO "hello" "svB" (Commands.one "say hi")
    ⟨[(1, ⟨"pw", ["svA"]⟩)], ["svA"], ⟨10, []⟩, ⟨10, []⟩, ⟨10, []⟩⟩ (by decide)

/-- C9: a malformed-JSON frame, a frame without an action, a frame naming an
unregistered action, and a frame whose payload fails schema validation are
each dropped by the listener loop: the handler step returns the state
unchanged and produces no effect, so no registry or cache is modified and the
connection is not closed (the step is a total function, so the process cannot
crash on such a frame). -/
theorem C9_bad_frame_dropped (secret : String) (cid now : Nat) (st : BridgeState)
    (f : Frame)
    (h : f = Frame.malformed ∨ f = Frame.noAction ∨
      (∃ name raw, f = Frame.action name raw ∧ registered name = false) ∨
      (∃ raw, f = Frame.action "authenticate" raw ∧ validateAuth raw = none) ∨
      (∃ raw, f = Frame.action "player-server-check" raw ∧
        validateServerCheck st raw = none)) :
    handle_frame secret cid now st f = (st, []) := by
  rcases h with rfl | rfl | ⟨name, raw, rfl, hreg⟩ | ⟨raw, rfl, hval⟩ | ⟨raw, rfl, hval⟩
  · rfl
  · rfl
  · simp only [registered, Bool.or_eq_false_iff, decide_eq_false_iff_not] at hreg
    obtain ⟨⟨hn1, hn2⟩, hn3⟩ := hreg
    simp [handle_frame, hn1, hn2, hn3]
  · rw [handle_frame_auth_eq, hval]
  · rw [handle_frame_server_eq, hval]

/-- Witness for C9: a frame naming the unregistered action `frobnicate` is
dropped without touching the state. -/
theorem C9_bad_frame_dropped_witness :
    handle_frame "pw" 1 0 initState
      (Frame.action "frobnicate" ⟨none, none, none, none, none, none⟩) =
      (initState, []) :=
  C9_bad_frame_dropped "pw" 1 0 initState
    (Frame.action "frobnicate" ⟨none, none, none, none, none, none⟩)
    (Or.inr (Or.inr (Or.inl
      ⟨"frobnicate", ⟨none, none, none, none, none, none⟩, rfl, by decide⟩)))

/-- C10 counterexample: with a non-empty Known Server Set, supplying `user`
together with a username — the empty string — does not raise: the guard
tests Python truthiness, an empty string is falsy, and the call returns
false. -/
theorem C10_counterexample :
    ((⟨[(1, ⟨"pw", ["svA"]⟩)], ["svA"], ⟨10, []⟩, ⟨10, []⟩, ⟨10, []⟩⟩ :
        BridgeState).MINECRAFT_SERVERS ≠ []) ∧
    (fetch_player_status (fun _ => none) id 0 0 (some 1) (some "") none
      ⟨[(1, ⟨"pw", ["svA"]⟩)], ["svA"], ⟨10, []⟩, ⟨10, []⟩, ⟨10, []⟩⟩).result =
      Except.ok false :=
  ⟨by decide, rfl⟩

/-- C10 (amended): when the Known Server Set is non-empty,
`fetch_player_status`, `fetch_player_server` and `send_player_message` raise
`ValueError` if the caller supplies a user together with a non-empty
username or uuid, or supplies no user and username/uuid that are both
absent or both present (an empty-string identifier counts as absent in the
user branch but as present in the exactly-one check); when the Known Server
Set is empty the same calls return the negative result (false or none)
without raising, sending nothing and waiting for nothing. -/
theorem C10_invalid_combo_raises (db : Nat → Option String)
    (env1 env2 : BridgeState → BridgeState) (now now2 now3 : Nat)
    (message_type : MessageType) (message : String)
    (user : Option Nat) (username uuid : Option String) (st : BridgeState)
    (h : (user.isSome = true ∧ (truthy username = true ∨ truthy uuid = true)) ∨
      (user = none ∧ username.isSome = uuid.isSome)) :
    (st.MINECRAFT_SERVERS ≠ [] →
      (∃ e, (fetch_player_status db env1 now now2 user username uuid st).result =
        Except.error e) ∧
      (∃ e, (fetch_player_server db env1 env2 now now2 now3
          user username uuid st).result = Except.error e) ∧
      (∃ e, (send_player_message db env1 now now2 message_type message
          user username uuid st).result = Except.error e)) ∧
    (st.MINECRAFT_SERVERS = [] →
      fetch_player_status db env1 now now2 user username uuid st =
        ⟨Except.ok false, st, [], 0⟩ ∧
      fetch_player_server db env1 env2 now now2 now3 user username uuid st =
        ⟨Except.ok none, st, [], 0⟩ ∧
      send_player_message db env1 now now2 message_type message user username uuid st =
        ⟨Except.ok false, st, [], 0⟩) := by
  have hres : ∃ e, resolve_identifier db user username uuid = Except.error e := by
    rcases h with ⟨hu, hor⟩ | ⟨rfl, heq⟩
    · obtain ⟨u, rfl⟩ := Option.isSome_iff_exists.mp hu
      have hb : (truthy username || truthy uuid) = true := by
        rcases hor with h1 | h1 <;> simp [h1]
      exact ⟨"When user is provided, username and uuid must be None",
        by simp [resolve_identifier, hb]⟩
    · exact ⟨"Exactly one of username or uuid must be provided",
        by simp [resolve_identifier, heq]⟩
  obtain ⟨e, he⟩ := hres
  constructor
  · intro hne
    have hie : st.MINECRAFT_SERVERS.isEmpty = false := by
      simpa [List.isEmpty_iff] using hne
    refine ⟨⟨e, ?_⟩, ⟨e, ?_⟩, ⟨e, ?_⟩⟩ <;>
      simp [fetch_player_status, fetch_player_server, send_player_message, hie, he]
  · intro hempty
    have hie : st.MINECRAFT_SERVERS.isEmpty = true := by simp [hempty]
    refine ⟨?_, ?_, ?_⟩ <;>
      simp [fetch_player_status, fetch_player_server, send_player_message, hie]

/-- Witness for C10's amended theorem: username and uuid both supplied, one
known server present, so all three facade calls raise. -/
theorem C10_invalid_combo_raises_witness :
    (∃ e, (fetch_player_status (fun _ => none) id 0 0 none (some "alice") (some "u-1")
      ⟨[(1, ⟨"pw", ["svA"]⟩)], ["svA"], ⟨10, []⟩, ⟨10, []⟩, ⟨10, []⟩⟩).result =
      Except.error e) ∧
    (∃ e, (fetch_player_server (fun _ => none) id id 0 0 0 none (some "alice")
      (some "u-1")
      ⟨[(1, ⟨"pw", ["svA"]⟩)], ["svA"], ⟨10, []⟩, ⟨10, []⟩, ⟨10, []⟩⟩).result =
      Except.error e) ∧
    (∃ e, (send_player_message (fun _ => none) id 0 0 MessageType.INFO "hi" none
      (some "alice") (some "u-1")
      ⟨[(1, ⟨"pw", ["svA"]⟩)], ["svA"], ⟨10, []⟩, ⟨10, []⟩, ⟨10, []⟩⟩).result =
      Except.error e) :=
  (C10_invalid_combo_raises (fun _ => none) id id 0 0 0 MessageType.INFO "hi" none
    (some "alice") (some "u-1")
    ⟨[(1, ⟨"pw", ["svA"]⟩)], ["svA"], ⟨10, []⟩, ⟨10, []⟩, ⟨10, []⟩⟩
    (Or.inr ⟨rfl, rfl⟩)).1 (by decide)

end Minebot
